import Mathlib

/-!
Shallow embedding of the PostBot source (src/main.py): a Telegram bot that
lets one operator per account link a broadcast channel, compose a post
(text + optional media + optional URL button) through an aiogram
finite-state-machine dialogue, preview it, and publish or cancel it.

Modelling conventions:
* The sqlite tables are lists of rows; SQL `INSERT OR REPLACE` on the
  `user_id PRIMARY KEY` of `users`, and the `DELETE`-then-`INSERT` of
  `save_post`, are both modelled as "drop the rows with this key, append
  the new row".  `SELECT ... WHERE user_id=? ... fetchone()` is `List.find?`.
* The aiogram `FSMContext` is a `Session`: an optional current state plus a
  data dict with one optional slot per key ever passed to `update_data`
  (a slot holds `some v` once the key was set, where `v` itself is the
  stored Python value, possibly `None`).  `state.clear()` resets both.
* Handlers are functions from the incoming message/callback and the world
  (both tables plus the operator's session) to `Option (World × List Out)`:
  `none` models an uncaught Python exception (aiogram swallows it and the
  session is left as it was), `some` carries the new world and the ordered
  outbound sends.
* Python string methods are re-implemented over `List Char` so that the
  kernel can evaluate them: `str.lower` (ASCII + Cyrillic letters, the only
  ones the literals here use), `str.strip` (whitespace), and
  `str.split("|", 1)` whose two-element unpacking raises `ValueError`
  exactly when the delimiter is absent (`pySplit1 = none`).
* Python truthiness on `str`/`Optional[str]` values is `truthyStr` /
  `truthyOpt` (`None` and `""` are falsy).
* The transport (`bot.send_*`) outcome at the publish step is a parameter
  `sendErr : Option String`: `none` means delivery succeeded, `some e`
  means it raised an exception whose rendered text is `e`.
-/

/-- The aiogram `PostForm` states group (class PostForm, src/main.py 69-73). -/
inductive PostForm where
  | set_channel
  | text
  | media
  | button
deriving DecidableEq, Repr

/-- The FSM data dict: one slot per key that the handlers ever store via
`update_data`.  `none` = key absent (lookup raises `KeyError`); `some v` =
key present with Python value `v` (which may itself be `None`). -/
structure FSMData where
  text : Option String
  media : Option (Option String)
  button_text : Option (Option String)
  button_url : Option (Option String)
deriving DecidableEq, Repr

def emptyData : FSMData := ⟨none, none, none, none⟩

/-- One operator's aiogram `FSMContext`: current state plus data dict. -/
structure Session where
  st : Option PostForm
  data : FSMData
deriving DecidableEq, Repr

/-- `state.clear()`: state set to `None` and the data dict emptied. -/
def clearedSession : Session := ⟨none, emptyData⟩

/-- A row of the `posts` table (init_db, src/main.py 32-40): no primary
key; `media`, `button_text`, `button_url` are nullable TEXT columns. -/
structure PostRow where
  user_id : Nat
  text : String
  media : Option String
  button_text : Option String
  button_url : Option String
deriving DecidableEq, Repr

/-- The world a handler acts on: the `users` table (user_id PRIMARY KEY,
channel_id TEXT), the `posts` table, and the acting operator's session. -/
structure World where
  users : List (Nat × String)
  posts : List PostRow
  session : Session
deriving DecidableEq, Repr

/-- An incoming Telegram message: list of photo-size file ids (the code
uses `photo[-1].file_id`), optional video file id, optional text
(`message.text` is `None` for non-text messages). -/
structure Msg where
  photo : List String
  video : Option String
  text : Option String
deriving DecidableEq, Repr

/-- The inline keyboards the code builds (main_menu, confirm_menu, and the
single URL button attached to a post). -/
inductive Kb where
  | mainMenu
  | confirmMenu
  | urlButton (txt url : String)
deriving DecidableEq, Repr

/-- Outbound effects, in order of emission.  `answer`/`photoPreview` go to
the operator's own chat; `publishText`/`publishPhoto` go to the linked
channel; `cbAnswer` is `callback.answer()`. -/
inductive Out where
  | answer (txt : String) (kb : Option Kb)
  | photoPreview (chatUser : Nat) (media caption : String) (kb : Option Kb)
  | publishText (channel txt : String) (kb : Option Kb)
  | publishPhoto (channel media caption : String) (kb : Option Kb)
  | cbAnswer
deriving DecidableEq, Repr

/-- The callback-query payloads the dispatcher matches on (`F.data == ...`):
the four button `callback_data` strings of main_menu / confirm_menu. -/
inductive CbData where
  | set_channel
  | new_post
  | confirm_yes
  | confirm_no
deriving DecidableEq, Repr

/-- Python `str.lower` on one character, for the character ranges the
program's literals use: ASCII `A`-`Z` and Cyrillic `А`-`Я` / `Ё`. -/
def pyCharLower (c : Char) : Char :=
  if 'A' ≤ c ∧ c ≤ 'Z' then Char.ofNat (c.toNat + 32)
  else if 'А' ≤ c ∧ c ≤ 'Я' then Char.ofNat (c.toNat + 32)
  else if c = 'Ё' then 'ё'
  else c

/-- Python `str.lower`. -/
def pyLower (s : String) : String := String.mk (s.data.map pyCharLower)

/-- Python `str.strip()`: drop leading and trailing whitespace. -/
def pyStrip (s : String) : String :=
  String.mk (((s.data.dropWhile Char.isWhitespace).reverse.dropWhile
      Char.isWhitespace).reverse)

/-- Split a character list at the first `|`, returning the parts before and
after it; `none` when no `|` occurs. -/
def splitFirst : List Char → Option (List Char × List Char)
  | [] => none
  | c :: cs =>
    if c = '|' then some ([], cs)
    else (splitFirst cs).map (fun p => (c :: p.1, p.2))

/-- Python `s.split("|", 1)` together with the two-element unpacking of
`get_button`: `some (before, after)` when at least one `|` occurs (the
remainder keeps any later `|`), `none` when the unpacking would raise
`ValueError`. -/
def pySplit1 (s : String) : Option (String × String) :=
  (splitFirst s.data).map (fun p => (String.mk p.1, String.mk p.2))

/-- Python truthiness of a `str`: `""` is falsy. -/
def truthyStr (s : String) : Bool := s ≠ ""

/-- Python truthiness of an `Optional[str]`: `None` and `""` are falsy. -/
def truthyOpt : Option String → Bool
  | none => false
  | some s => truthyStr s

/-- `set_channel` (src/main.py 43-46): `INSERT OR REPLACE INTO users`.
With `user_id` the PRIMARY KEY this replaces any conflicting row, modelled
as dropping the operator's rows and appending the new one. -/
def set_channel (db : List (Nat × String)) (user_id : Nat) (channel_id : String) :
    List (Nat × String) :=
  db.filter (fun r => r.1 != user_id) ++ [(user_id, channel_id)]

/-- `get_channel` (src/main.py 48-52): `SELECT channel_id FROM users WHERE
user_id=?`, `fetchone`, `row[0] if row else None`. -/
def get_channel (db : List (Nat × String)) (user_id : Nat) : Option String :=
  (db.find? (fun r => r.1 == user_id)).map (fun r => r.2)

/-- `save_post` (src/main.py 54-61): `DELETE FROM posts WHERE user_id=?`
then `INSERT` the new row, in one transaction. -/
def save_post (db : List PostRow) (user_id : Nat) (text : String)
    (media button_text button_url : Option String) : List PostRow :=
  db.filter (fun r => r.user_id != user_id) ++
    [⟨user_id, text, media, button_text, button_url⟩]

/-- `get_post` (src/main.py 63-66): `SELECT text, media, button_text,
button_url FROM posts WHERE user_id=?`, `fetchone` (first matching row or
`None`). -/
def get_post (db : List PostRow) (user_id : Nat) :
    Option (String × Option String × Option String × Option String) :=
  (db.find? (fun r => r.user_id == user_id)).map
    (fun r => (r.text, r.media, r.button_text, r.button_url))

/-- The button-spec validation of `get_button` (src/main.py 140-147): if
the text is not (case-insensitively) the literal sentinel, split on the
first `|` and strip both parts (`none` = `ValueError`, i.e. re-prompt);
the sentinel yields the pair `(None, None)`. -/
def parse_button (t : String) : Option (Option String × Option String) :=
  if pyLower t ≠ "нет" then
    match pySplit1 t with
    | none => none
    | some (a, b) => some (some (pyStrip a), some (pyStrip b))
  else
    some (none, none)

/-- `if button_text and button_url:` keyboard construction (src/main.py
154-155 and 171-172): built only when both values are truthy. -/
def kbOf (button_text button_url : Option String) : Option Kb :=
  match button_text, button_url with
  | some b, some u => if truthyStr b && truthyStr u then some (Kb.urlButton b u) else none
  | _, _ => none

/-- `cb_set_channel` (src/main.py 96-100): prompt for the channel and enter
`PostForm.set_channel` (the data dict is untouched by `set_state`). -/
def cb_set_channel (w : World) : World × List Out :=
  ({ w with session := ⟨some PostForm.set_channel, w.session.data⟩ },
   [Out.answer "Отправь @username или ID канала:" none, Out.cbAnswer])

/-- `save_channel_id` (src/main.py 102-107): strip the text, upsert the
channel link, confirm, and `state.clear()`.  `none` models the
`AttributeError` of `message.text.strip()` on a non-text message. -/
def save_channel_id (uid : Nat) (m : Msg) (w : World) : Option (World × List Out) :=
  match m.text with
  | none => none
  | some t =>
    some ({ w with users := set_channel w.users uid (pyStrip t),
                   session := clearedSession },
      [Out.answer ("✅ Канал " ++ pyStrip t ++ " привязан.") (some Kb.mainMenu)])

/-- `cb_new_post` (src/main.py 109-117): reject with guidance and `return`
(before `callback.answer()`) when the stored channel is falsy; otherwise
prompt for the text and enter `PostForm.text`. -/
def cb_new_post (uid : Nat) (w : World) : World × List Out :=
  if truthyOpt (get_channel w.users uid) then
    ({ w with session := ⟨some PostForm.text, w.session.data⟩ },
     [Out.answer "Отправь текст поста:" none, Out.cbAnswer])
  else
    (w, [Out.answer "❌ Сначала привяжи канал через кнопку \x27📌 Привязать канал\x27" none])

/-- `get_text` (src/main.py 119-123): store `message.html_text` (the text
with its entities rendered as HTML; modelled by the text itself) and enter
`PostForm.media`.  `none` models the error `html_text` raises on a
non-text message. -/
def get_text (m : Msg) (w : World) : Option (World × List Out) :=
  match m.text with
  | none => none
  | some t =>
    some ({ w with session := ⟨some PostForm.media,
                               { w.session.data with text := some t }⟩ },
      [Out.answer "Отправь фото/видео или напиши \x27нет\x27:" none])

/-- `get_media` (src/main.py 125-136).  `media_id` starts as `None`; a
photo or video overwrites it; otherwise `message.text.lower()` is compared
with the sentinel — which raises `AttributeError` when `message.text` is
`None`, and leaves `media_id = None` whatever the text is (the comparison
branch is a no-op, so any unmatched text falls through identically).  Then
the media slot is stored, the button prompt sent and `PostForm.button`
entered. -/
def get_media (m : Msg) (w : World) : Option (World × List Out) :=
  let proceed : Option String → Option (World × List Out) := fun media_id =>
    some ({ w with session := ⟨some PostForm.button,
                               { w.session.data with media := some media_id }⟩ },
      [Out.answer "Хочешь кнопку? Напиши: Текст | https://ссылка или \x27нет\x27" none])
  match m.photo.getLast? with
  | some fid => proceed (some fid)
  | none =>
    match m.video with
    | some fid => proceed (some fid)
    | none =>
      match m.text with
      | none => none
      | some _ => proceed none

/-- `get_button` (src/main.py 138-162).  Parse the button spec
(`parse_button`); on `ValueError` re-prompt and `return` (no state or data
change, nothing persisted).  Otherwise store both values in the data dict,
read the dict back, persist the full draft via `save_post`, send the
preview (photo with caption when the media slot is truthy, else plain
text) with the URL-button keyboard when both parts are truthy, and ask for
confirmation.  No `set_state`/`clear` is performed: the FSM state is left
as it was.  `none` models the `AttributeError` on a non-text message or
the `KeyError` when the `text`/`media` keys were never stored. -/
def get_button (uid : Nat) (m : Msg) (w : World) : Option (World × List Out) :=
  match m.text with
  | none => none
  | some t =>
    match parse_button t with
    | none =>
      some (w, [Out.answer "Неверный формат. Попробуй снова или напиши \x27нет\x27" none])
    | some (bt, bu) =>
      let d := { w.session.data with button_text := some bt, button_url := some bu }
      match d.text, d.media with
      | some tx, some md =>
        let preview : Out :=
          if truthyOpt md then Out.photoPreview uid (md.getD "") tx (kbOf bt bu)
          else Out.answer tx (kbOf bt bu)
        some ({ users := w.users,
                posts := save_post w.posts uid tx md bt bu,
                session := ⟨w.session.st, d⟩ },
          [preview, Out.answer "Опубликовать в канал?" (some Kb.confirmMenu)])
      | _, _ => none

/-- `cb_confirm_yes` (src/main.py 164-182): read the draft and channel from
the store; when the row exists and the channel is truthy, attempt the send
(photo with caption when `media` is truthy, else text) and report success,
or report the failure with the exception text; when either is missing, do
nothing.  In every case `state.clear()` and `callback.answer()` run. -/
def cb_confirm_yes (uid : Nat) (sendErr : Option String) (w : World) : World × List Out :=
  let res : List Out :=
    match get_post w.posts uid, get_channel w.users uid with
    | some (tx, md, bt, bu), some ch =>
      if truthyStr ch then
        match sendErr with
        | none =>
          (if truthyOpt md then [Out.publishPhoto ch (md.getD "") tx (kbOf bt bu)]
           else [Out.publishText ch tx (kbOf bt bu)]) ++
          [Out.answer "✅ Пост опубликован!" (some Kb.mainMenu)]
        | some e =>
          [Out.answer ("❌ Ошибка публикации: " ++ e) (some Kb.mainMenu)]
      else []
    | _, _ => []
  ({ w with session := clearedSession }, res ++ [Out.cbAnswer])

/-- `cb_confirm_no` (src/main.py 184-188): report cancellation, clear the
session, acknowledge the callback. -/
def cb_confirm_no (w : World) : World × List Out :=
  ({ w with session := clearedSession },
   [Out.answer "❌ Публикация отменена." (some Kb.mainMenu), Out.cbAnswer])

/-- The dispatcher's routing of a plain message by the current FSM state
(the `dp.message(PostForm...)` decorators): an unmatched combination is
dropped. -/
def handle_message (uid : Nat) (m : Msg) (w : World) : Option (World × List Out) :=
  match w.session.st with
  | some PostForm.set_channel => save_channel_id uid m w
  | some PostForm.text => get_text m w
  | some PostForm.media => get_media m w
  | some PostForm.button => get_button uid m w
  | none => none

/-- The dispatcher's routing of a callback query by its `data` payload
alone (`dp.callback_query(F.data == ...)`): no state filter is involved. -/
def handle_callback (uid : Nat) (d : CbData) (sendErr : Option String) (w : World) :
    World × List Out :=
  match d with
  | CbData.set_channel => cb_set_channel w
  | CbData.new_post => cb_new_post uid w
  | CbData.confirm_yes => cb_confirm_yes uid sendErr w
  | CbData.confirm_no => cb_confirm_no w

/-! ## Store lemmas -/

theorem find?_filter_ne_posts (u : Nat) (l : List PostRow) :
    (l.filter (fun r => r.user_id != u)).find? (fun r => r.user_id == u) = none := by
  induction l with
  | nil => rfl
  | cons a l ih =>
    by_cases h : a.user_id = u
    · simp [List.filter_cons, h, ih]
    · simp [List.filter_cons, h, List.find?_cons, ih]

theorem filter_filter_ne_posts (u : Nat) (l : List PostRow) :
    (l.filter (fun r => r.user_id != u)).filter (fun r => r.user_id == u) = [] := by
  induction l with
  | nil => rfl
  | cons a l ih =>
    by_cases h : a.user_id = u
    · simp [List.filter_cons, h, ih]
    · simp [List.filter_cons, h, ih]

theorem find?_filter_ne_users (u : Nat) (l : List (Nat × String)) :
    (l.filter (fun r => r.1 != u)).find? (fun r => r.1 == u) = none := by
  induction l with
  | nil => rfl
  | cons a l ih =>
    by_cases h : a.1 = u
    · simp [List.filter_cons, h, ih]
    · simp [List.filter_cons, h, List.find?_cons, ih]

theorem filter_filter_ne_users (u : Nat) (l : List (Nat × String)) :
    (l.filter (fun r => r.1 != u)).filter (fun r => r.1 == u) = [] := by
  induction l with
  | nil => rfl
  | cons a l ih =>
    by_cases h : a.1 = u
    · simp [List.filter_cons, h, ih]
    · simp [List.filter_cons, h, ih]

theorem find?_append_of_none {α : Type} (p : α → Bool) (l1 l2 : List α)
    (h : l1.find? p = none) : (l1 ++ l2).find? p = l2.find? p := by
  induction l1 with
  | nil => rfl
  | cons a l ih =>
    rw [List.cons_append]
    cases hp : p a with
    | true => simp [List.find?_cons, hp] at h
    | false =>
      rw [List.find?_cons, hp] at h
      rw [List.find?_cons, hp]
      exact ih h

theorem get_post_save_post (db : List PostRow) (u : Nat) (t : String)
    (m bt bu : Option String) :
    get_post (save_post db u t m bt bu) u = some (t, m, bt, bu) := by
  unfold get_post save_post
  rw [find?_append_of_none _ _ _ (find?_filter_ne_posts u db)]
  simp [List.find?_cons]

theorem get_channel_set_channel (db : List (Nat × String)) (u : Nat) (c : String) :
    get_channel (set_channel db u c) u = some c := by
  unfold get_channel set_channel
  rw [find?_append_of_none _ _ _ (find?_filter_ne_users u db)]
  simp [List.find?_cons]

/-! ## Parsing lemmas -/

theorem splitFirst_eq_none (l : List Char) (h : '|' ∉ l) : splitFirst l = none := by
  induction l with
  | nil => rfl
  | cons c cs ih =>
    have hc : c ≠ '|' := fun e => h (e ▸ List.mem_cons_self c cs)
    simp [splitFirst, hc, ih (fun hm => h (List.mem_cons_of_mem c hm))]

theorem splitFirst_append_bar (L1 L2 : List Char) (h : '|' ∉ L1) :
    splitFirst (L1 ++ '|' :: L2) = some (L1, L2) := by
  induction L1 with
  | nil => simp [splitFirst]
  | cons c cs ih =>
    have hc : c ≠ '|' := fun e => h (e ▸ List.mem_cons_self c cs)
    simp [splitFirst, hc, ih (fun hm => h (List.mem_cons_of_mem c hm))]

theorem pySplit1_eq_none (t : String) (h : '|' ∉ t.data) : pySplit1 t = none := by
  unfold pySplit1
  rw [splitFirst_eq_none t.data h]
  rfl

theorem pyLower_ne_net_of_bar (t : String) (h : '|' ∈ t.data) : pyLower t ≠ "нет" := by
  intro he
  have hlow : pyCharLower '|' = '|' := by decide
  have hd : t.data.map pyCharLower = "нет".data := congrArg String.data he
  have hm : '|' ∈ "нет".data := by
    rw [← hd]
    exact List.mem_map.mpr ⟨'|', h, hlow⟩
  exact absurd hm (by decide)

theorem parse_button_paired (t : String) (bt bu : Option String)
    (h : parse_button t = some (bt, bu)) : bt.isSome ↔ bu.isSome := by
  unfold parse_button at h
  by_cases hn : pyLower t ≠ "нет"
  · rw [if_pos hn] at h
    cases hps : pySplit1 t with
    | none => rw [hps] at h; exact absurd h (by simp)
    | some p =>
      rw [hps] at h
      rw [Option.some.injEq, Prod.mk.injEq] at h
      obtain ⟨h1, h2⟩ := h
      rw [← h1, ← h2]
      simp
  · rw [if_neg hn] at h
    rw [Option.some.injEq, Prod.mk.injEq] at h
    obtain ⟨h1, h2⟩ := h
    rw [← h1, ← h2]

/-! ## Claim theorems -/

theorem count_save_post (db : List PostRow) (u : Nat) (t : String)
    (m bt bu : Option String) :
    ((save_post db u t m bt bu).filter (fun r => r.user_id == u)).length = 1 := by
  unfold save_post
  rw [List.filter_append, filter_filter_ne_posts]
  simp

/-- C5: after `save_post` (the spec's `replace_draft`) runs twice in
succession for the same operator, `get_post` (the spec's `get_draft`)
returns exactly the second draft's content, and the store holds exactly
one draft row for that operator: overwrite, never accumulation. -/
theorem C5_replace_draft_overwrites (db : List PostRow) (u : Nat)
    (t1 t2 : String) (m1 b1 v1 m2 b2 v2 : Option String) :
    get_post (save_post (save_post db u t1 m1 b1 v1) u t2 m2 b2 v2) u
      = some (t2, m2, b2, v2) ∧
    ((save_post (save_post db u t1 m1 b1 v1) u t2 m2 b2 v2).filter
        (fun r => r.user_id == u)).length = 1 :=
  ⟨get_post_save_post (save_post db u t1 m1 b1 v1) u t2 m2 b2 v2,
   count_save_post (save_post db u t1 m1 b1 v1) u t2 m2 b2 v2⟩

theorem filter_ne_filter_eq_users (u v : Nat) (hv : v ≠ u) (l : List (Nat × String)) :
    (l.filter (fun r => r.1 != u)).filter (fun r => r.1 == v)
      = l.filter (fun r => r.1 == v) := by
  induction l with
  | nil => rfl
  | cons a l ih =>
    by_cases h : a.1 = u
    · simp [List.filter_cons, h, ih, Ne.symm hv]
    · by_cases h2 : a.1 = v
      · simp [List.filter_cons, h, h2, ih, hv]
      · simp [List.filter_cons, h, h2, ih, hv]

/-- C8: `set_channel` has upsert semantics on the `users` table (whose
`user_id` is the PRIMARY KEY): `get_channel` returns the channel just
stored, a second `set_channel` overwrites the first, after a `set_channel`
exactly one link row exists for that operator, and the rows of every other
operator are untouched. -/
theorem C8_channel_link_upsert (db : List (Nat × String)) (u v : Nat)
    (c c1 c2 : String) (hv : v ≠ u) :
    get_channel (set_channel db u c) u = some c ∧
    get_channel (set_channel (set_channel db u c1) u c2) u = some c2 ∧
    ((set_channel db u c).filter (fun r => r.1 == u)).length = 1 ∧
    (set_channel db u c).filter (fun r => r.1 == v) = db.filter (fun r => r.1 == v) := by
  refine ⟨get_channel_set_channel db u c,
          get_channel_set_channel (set_channel db u c1) u c2, ?_, ?_⟩
  · unfold set_channel
    rw [List.filter_append, filter_filter_ne_users]
    simp
  · unfold set_channel
    rw [List.filter_append, filter_ne_filter_eq_users u v hv]
    simp [Ne.symm hv]

/-- Witness for C8 at a concrete store: operator 1 relinks from `@a` to
`@b`; operator 2's row survives untouched. -/
theorem C8_channel_link_upsert_witness :
    get_channel (set_channel [(2, "@z")] 1 "@b") 1 = some "@b" ∧
    get_channel (set_channel (set_channel [(2, "@z")] 1 "@a") 1 "@b") 1 = some "@b" ∧
    ((set_channel [(2, "@z")] 1 "@b").filter (fun r => r.1 == 1)).length = 1 ∧
    (set_channel [(2, "@z")] 1 "@b").filter (fun r => r.1 == 2)
      = [(2, "@z")].filter (fun r => r.1 == 2) :=
  C8_channel_link_upsert [(2, "@z")] 1 2 "@b" "@a" "@b" (by decide)

/-- C6: when the operator has no linked channel, pressing "new post" is
rejected with the guidance message and the world is returned unchanged:
the session (hence the Idle state) is untouched and no draft row is
created or mutated. -/
theorem C6_new_post_requires_channel (uid : Nat) (w : World)
    (h : get_channel w.users uid = none) :
    cb_new_post uid w =
      (w, [Out.answer "❌ Сначала привяжи канал через кнопку \x27📌 Привязать канал\x27" none]) := by
  unfold cb_new_post
  rw [h]
  rfl

/-- Witness for C6: an operator with an empty `users` table and an Idle
session is rejected and left exactly as they were. -/
theorem C6_new_post_requires_channel_witness :
    cb_new_post 1 ⟨[], [], clearedSession⟩ =
      (⟨[], [], clearedSession⟩,
       [Out.answer "❌ Сначала привяжи канал через кнопку \x27📌 Привязать канал\x27" none]) :=
  C6_new_post_requires_channel 1 ⟨[], [], clearedSession⟩ rfl

/-- C2: when the draft and a truthy channel exist but the transport raises,
the operator receives the failure message carrying the exception's text,
the session is cleared to Idle, the draft row is untouched; and the
session is cleared for every transport outcome alike (failure behaves as
success does). -/
theorem C2_publish_failure_reported (uid : Nat) (e tx ch : String)
    (md bt bu : Option String) (w : World)
    (hp : get_post w.posts uid = some (tx, md, bt, bu))
    (hc : get_channel w.users uid = some ch) (hch : ch ≠ "") :
    cb_confirm_yes uid (some e) w =
      ({ w with session := clearedSession },
       [Out.answer ("❌ Ошибка публикации: " ++ e) (some Kb.mainMenu), Out.cbAnswer]) ∧
    (cb_confirm_yes uid (some e) w).1.posts = w.posts ∧
    ∀ sendErr : Option String, (cb_confirm_yes uid sendErr w).1.session = clearedSession := by
  refine ⟨?_, rfl, fun sendErr => rfl⟩
  unfold cb_confirm_yes
  rw [hp, hc]
  simp [truthyStr, hch]

/-- Witness for C2: concrete store with a text-only draft for operator 1
and channel `@ch`; the send raises with text `boom`. -/
theorem C2_publish_failure_reported_witness :
    cb_confirm_yes 1 (some "boom")
        ⟨[(1, "@ch")], [⟨1, "Hello", none, none, none⟩], clearedSession⟩ =
      (⟨[(1, "@ch")], [⟨1, "Hello", none, none, none⟩], clearedSession⟩,
       [Out.answer ("❌ Ошибка публикации: " ++ "boom") (some Kb.mainMenu), Out.cbAnswer]) ∧
    (cb_confirm_yes 1 (some "boom")
        ⟨[(1, "@ch")], [⟨1, "Hello", none, none, none⟩], clearedSession⟩).1.posts
      = [⟨1, "Hello", none, none, none⟩] ∧
    ∀ sendErr : Option String,
      (cb_confirm_yes 1 sendErr
          ⟨[(1, "@ch")], [⟨1, "Hello", none, none, none⟩], clearedSession⟩).1.session
        = clearedSession :=
  C2_publish_failure_reported 1 "boom" "Hello" "@ch" none none none
    ⟨[(1, "@ch")], [⟨1, "Hello", none, none, none⟩], clearedSession⟩ rfl rfl (by decide)

/-- C7 counterexample: operator 1 presses confirm mid-composition (state
`PostForm.button`, text and media already gathered) with no stored draft
and no channel.  The code emits no guidance message at all (the only
output is the callback acknowledgement) and the session IS reset to Idle —
contradicting the claim that a guidance message is sent and that no reset
to Idle happens. -/
theorem C7_cex :
    cb_confirm_yes 1 none
        ⟨[], [], ⟨some PostForm.button, ⟨some "Hi", some none, none, none⟩⟩⟩ =
      (⟨[], [], clearedSession⟩, [Out.cbAnswer]) := rfl

/-- C7 (amended): when the operator has no stored draft or no linked
channel at confirmation, nothing is published and no message of any kind
is sent to the operator — the handler silently clears the session to Idle
and only acknowledges the callback. -/
theorem C7_missing_prereq_silent_reset (uid : Nat) (sendErr : Option String) (w : World)
    (h : get_post w.posts uid = none ∨ get_channel w.users uid = none) :
    cb_confirm_yes uid sendErr w = ({ w with session := clearedSession }, [Out.cbAnswer]) := by
  unfold cb_confirm_yes
  rcases h with h | h
  · rw [h]
    rcases get_channel w.users uid with _ | ch <;> rfl
  · rw [h]
    rcases hp : get_post w.posts uid with _ | ⟨tx, md, bt, bu⟩ <;> rfl

/-- Witness for C7 (amended): empty store, operator mid-composition. -/
theorem C7_missing_prereq_silent_reset_witness :
    cb_confirm_yes 2 none
        ⟨[], [], ⟨some PostForm.media, ⟨some "Hi", none, none, none⟩⟩⟩ =
      (⟨[], [], clearedSession⟩, [Out.cbAnswer]) :=
  C7_missing_prereq_silent_reset 2 none
    ⟨[], [], ⟨some PostForm.media, ⟨some "Hi", none, none, none⟩⟩⟩ (Or.inl rfl)

/-- C10: the confirm and cancel callbacks are routed on the callback data
alone — the handlers never read the session, so from any two dialogue
states (Idle or mid-composition) they produce identical stores, outputs
and final state, and both clear the session to Idle. -/
theorem C10_confirm_cancel_state_independent (uid : Nat) (sendErr : Option String)
    (us : List (Nat × String)) (ps : List PostRow) (s1 s2 : Session) :
    handle_callback uid CbData.confirm_yes sendErr ⟨us, ps, s1⟩
      = handle_callback uid CbData.confirm_yes sendErr ⟨us, ps, s2⟩ ∧
    handle_callback uid CbData.confirm_no sendErr ⟨us, ps, s1⟩
      = handle_callback uid CbData.confirm_no sendErr ⟨us, ps, s2⟩ ∧
    (handle_callback uid CbData.confirm_yes sendErr ⟨us, ps, s1⟩).1.session
      = clearedSession ∧
    (handle_callback uid CbData.confirm_no sendErr ⟨us, ps, s1⟩).1.session
      = clearedSession :=
  ⟨rfl, rfl, rfl, rfl⟩

/-- C4: a button-step text with no `|` that is not the sentinel makes the
handler re-prompt and return: the whole world — FSM state (still the
button state), session data (the gathered text and media), and both tables
— is unchanged, so no draft is persisted. -/
theorem C4_malformed_button_reprompts (uid : Nat) (m : Msg) (w : World) (t : String)
    (hst : w.session.st = some PostForm.button)
    (hm : m.text = some t)
    (hbar : '|' ∉ t.data)
    (hnet : pyLower t ≠ "нет") :
    handle_message uid m w =
      some (w, [Out.answer "Неверный формат. Попробуй снова или напиши \x27нет\x27" none]) := by
  have hps : pySplit1 t = none := pySplit1_eq_none t hbar
  have hpb : parse_button t = none := by
    unfold parse_button
    rw [if_pos hnet, hps]
  simp [handle_message, hst, get_button, hm, hpb]

/-- Witness for C4: input `nolinkhere` (the spec's end-to-end scenario 2)
at the button step leaves the session and stores untouched and re-prompts. -/
theorem C4_malformed_button_reprompts_witness :
    handle_message 1 ⟨[], none, some "nolinkhere"⟩
        ⟨[(1, "@ch")], [], ⟨some PostForm.button, ⟨some "Hello", some none, none, none⟩⟩⟩ =
      some (⟨[(1, "@ch")], [], ⟨some PostForm.button, ⟨some "Hello", some none, none, none⟩⟩⟩,
        [Out.answer "Неверный формат. Попробуй снова или напиши \x27нет\x27" none]) :=
  C4_malformed_button_reprompts 1 ⟨[], none, some "nolinkhere"⟩
    ⟨[(1, "@ch")], [], ⟨some PostForm.button, ⟨some "Hello", some none, none, none⟩⟩⟩
    "nolinkhere" rfl rfl (by decide) (by decide)

/-- C3 counterexample: at the media step, the text `hello` — neither a
photo, nor a video, nor the sentinel — is NOT silently ignored: the
session advances to the button state (with the media slot recorded as
absent), contradicting the claim that the state does not change. -/
theorem C3_cex :
    (handle_message 1 ⟨[], none, some "hello"⟩
        ⟨[(1, "@ch")], [], ⟨some PostForm.media, ⟨some "Hi", none, none, none⟩⟩⟩).map
      (fun r => r.1.session.st) = some (some PostForm.button) ∧
    PostForm.button ≠ PostForm.media := ⟨rfl, by decide⟩

/-- C3 (amended): at the media step any text input — recognized sentinel or
not — is treated identically: the media slot is stored as absent and the
dialogue advances to the button state; only an input with neither photo,
video, nor text raises inside the handler and leaves the session
unchanged. -/
theorem C3_unrecognized_text_advances (uid : Nat) (m : Msg) (w : World) (t : String)
    (hst : w.session.st = some PostForm.media)
    (hp : m.photo = []) (hv : m.video = none) (hm : m.text = some t)
    (_hnet : pyLower t ≠ "нет") :
    handle_message uid m w = some
      ({ w with session := ⟨some PostForm.button,
                            { w.session.data with media := some none }⟩ },
       [Out.answer "Хочешь кнопку? Напиши: Текст | https://ссылка или \x27нет\x27" none]) ∧
    (∀ m2 : Msg, m2.photo = [] → m2.video = none → m2.text = none →
      handle_message uid m2 w = none) := by
  constructor
  · simp [handle_message, hst, get_media, hp, hv, hm]
  · intro m2 p2 v2 t2
    simp [handle_message, hst, get_media, p2, v2, t2]

/-- Witness for C3 (amended) at the concrete input `hello`. -/
theorem C3_unrecognized_text_advances_witness :
    handle_message 1 ⟨[], none, some "hello"⟩
        ⟨[(1, "@ch")], [], ⟨some PostForm.media, ⟨some "Hi", none, none, none⟩⟩⟩ = some
      (⟨[(1, "@ch")], [], ⟨some PostForm.button, ⟨some "Hi", some none, none, none⟩⟩⟩,
       [Out.answer "Хочешь кнопку? Напиши: Текст | https://ссылка или \x27нет\x27" none]) ∧
    (∀ m2 : Msg, m2.photo = [] → m2.video = none → m2.text = none →
      handle_message 1 m2
        ⟨[(1, "@ch")], [], ⟨some PostForm.media, ⟨some "Hi", none, none, none⟩⟩⟩ = none) :=
  C3_unrecognized_text_advances 1 ⟨[], none, some "hello"⟩
    ⟨[(1, "@ch")], [], ⟨some PostForm.media, ⟨some "Hi", none, none, none⟩⟩⟩
    "hello" rfl rfl rfl rfl (by decide)

/-- C1 counterexample: the fully valid button spec `Buy | https://example.com`
is accepted — yet the FSM state after the handler equals the state before
it (`PostForm.button`): `get_button` performs no `set_state`, and the
source defines no confirmation state at all, so the dialogue does not
advance to an AwaitingConfirmation state. -/
theorem C1_cex :
    (handle_message 1 ⟨[], none, some "Buy | https://example.com"⟩
        ⟨[(1, "@ch")], [], ⟨some PostForm.button, ⟨some "Hello", some none, none, none⟩⟩⟩).map
      (fun r => r.1.session.st) = some (some PostForm.button) := rfl

/-- C1 (amended): for every `label | url` input whose label and url are
non-empty after trimming and contain no `|`, the button step persists a
draft whose button fields are the trimmed label and url together with the
session's gathered text and media, and shows the confirm/cancel menu — but
the FSM state remains the button state (the code has no separate
AwaitingConfirmation state; confirmation is driven by the callback data
alone). -/
theorem C1_valid_button_persists_draft (uid : Nat) (m : Msg) (w : World)
    (t tx : String) (md : Option String) (L1 L2 : List Char)
    (hst : w.session.st = some PostForm.button)
    (htx : w.session.data.text = some tx)
    (hmd : w.session.data.media = some md)
    (hm : m.text = some t)
    (hd : t.data = L1 ++ '|' :: L2)
    (h1 : '|' ∉ L1) (_h2 : '|' ∉ L2)
    (_hne1 : pyStrip (String.mk L1) ≠ "") (_hne2 : pyStrip (String.mk L2) ≠ "") :
    ∃ outs,
      handle_message uid m w = some
        (⟨w.users,
          save_post w.posts uid tx md (some (pyStrip (String.mk L1)))
            (some (pyStrip (String.mk L2))),
          ⟨some PostForm.button,
           { w.session.data with
               button_text := some (some (pyStrip (String.mk L1))),
               button_url := some (some (pyStrip (String.mk L2))) }⟩⟩, outs) ∧
      get_post (save_post w.posts uid tx md (some (pyStrip (String.mk L1)))
          (some (pyStrip (String.mk L2)))) uid
        = some (tx, md, some (pyStrip (String.mk L1)), some (pyStrip (String.mk L2))) ∧
      Out.answer "Опубликовать в канал?" (some Kb.confirmMenu) ∈ outs := by
  have hbar : '|' ∈ t.data := by
    rw [hd]
    exact List.mem_append_right L1 (List.mem_cons_self '|' L2)
  have hnet : pyLower t ≠ "нет" := pyLower_ne_net_of_bar t hbar
  have hps : pySplit1 t = some (String.mk L1, String.mk L2) := by
    unfold pySplit1
    rw [hd, splitFirst_append_bar L1 L2 h1]
    rfl
  have hpb : parse_button t
      = some (some (pyStrip (String.mk L1)), some (pyStrip (String.mk L2))) := by
    unfold parse_button
    rw [if_pos hnet, hps]
  refine ⟨[if truthyOpt md then
             Out.photoPreview uid (md.getD "") tx
               (kbOf (some (pyStrip (String.mk L1))) (some (pyStrip (String.mk L2))))
           else Out.answer tx
               (kbOf (some (pyStrip (String.mk L1))) (some (pyStrip (String.mk L2)))),
           Out.answer "Опубликовать в канал?" (some Kb.confirmMenu)], ?_, ?_, ?_⟩
  · simp [handle_message, hst, get_button, hm, hpb, htx, hmd]
  · exact get_post_save_post w.posts uid tx md _ _
  · simp

/-- Witness for C1 (amended): the spec's end-to-end input
`Buy | https://example.com` with gathered text `Hello` and no media. -/
theorem C1_valid_button_persists_draft_witness :
    ∃ outs,
      handle_message 1 ⟨[], none, some "Buy | https://example.com"⟩
          ⟨[(1, "@ch")], [], ⟨some PostForm.button, ⟨some "Hello", some none, none, none⟩⟩⟩
        = some
        (⟨[(1, "@ch")],
          save_post [] 1 "Hello" none (some (pyStrip "Buy "))
            (some (pyStrip " https://example.com")),
          ⟨some PostForm.button,
           ⟨some "Hello", some none, some (some (pyStrip "Buy ")),
            some (some (pyStrip " https://example.com"))⟩⟩⟩, outs) ∧
      get_post (save_post [] 1 "Hello" none (some (pyStrip "Buy "))
          (some (pyStrip " https://example.com"))) 1
        = some ("Hello", none, some (pyStrip "Buy "), some (pyStrip " https://example.com")) ∧
      Out.answer "Опубликовать в канал?" (some Kb.confirmMenu) ∈ outs :=
  C1_valid_button_persists_draft 1 ⟨[], none, some "Buy | https://example.com"⟩
    ⟨[(1, "@ch")], [], ⟨some PostForm.button, ⟨some "Hello", some none, none, none⟩⟩⟩
    "Buy | https://example.com" "Hello" none "Buy ".data " https://example.com".data
    rfl rfl rfl rfl rfl (by decide) (by decide) (by decide) (by decide)

/-- C9: whatever reaches `save_post` from the button step has its two
button fields paired: a successful `get_button` run either leaves the
`posts` table untouched (the re-prompt path) or persists for the operator
a row whose `button_text` and `button_url` are both present (the split
path) or both absent (the sentinel path) — never one without the other. -/
theorem C9_button_fields_paired (uid : Nat) (m : Msg) (w w2 : World) (outs : List Out)
    (h : get_button uid m w = some (w2, outs)) :
    w2.posts = w.posts ∨
    ∃ tx md bt bu,
      get_post w2.posts uid = some (tx, md, bt, bu) ∧ (bt.isSome ↔ bu.isSome) := by
  unfold get_button at h
  cases hm : m.text with
  | none => rw [hm] at h; cases h
  | some t =>
    rw [hm] at h
    dsimp only at h
    cases hpb : parse_button t with
    | none =>
      rw [hpb] at h
      left
      rw [Option.some.injEq, Prod.mk.injEq] at h
      rw [← h.1]
    | some p =>
      obtain ⟨bt, bu⟩ := p
      rw [hpb] at h
      dsimp only at h
      cases htx : w.session.data.text with
      | none => rw [htx] at h; cases h
      | some tx =>
        rw [htx] at h
        cases hmd : w.session.data.media with
        | none => rw [hmd] at h; cases h
        | some md =>
          rw [hmd] at h
          rw [Option.some.injEq, Prod.mk.injEq] at h
          right
          refine ⟨tx, md, bt, bu, ?_, parse_button_paired t bt bu hpb⟩
          rw [← h.1]
          exact get_post_save_post w.posts uid tx md bt bu

/-- Witness for C9 on the sentinel path: input `нет` leaves both button
fields absent in the persisted row. -/
theorem C9_button_fields_paired_witness :
    save_post [] 3 "Hi" none none none = ([] : List PostRow) ∨
    ∃ tx md bt bu,
      get_post (save_post [] 3 "Hi" none none none) 3 = some (tx, md, bt, bu) ∧
      (bt.isSome ↔ bu.isSome) :=
  C9_button_fields_paired 3 ⟨[], none, some "нет"⟩
    ⟨[], [], ⟨some PostForm.button, ⟨some "Hi", some none, none, none⟩⟩⟩
    ⟨[], save_post [] 3 "Hi" none none none,
     ⟨some PostForm.button, ⟨some "Hi", some none, some none, some none⟩⟩⟩
    [Out.answer "Hi" none, Out.answer "Опубликовать в канал?" (some Kb.confirmMenu)]
    rfl
